import Mathlib

open scoped Classical

/-!
Formal model of the Plaesthetic matching-and-playback subsystem.

The definitions below are a shallow embedding of `src/modules/tag_matching.py`
(cosine similarity and library matching) and `src/modules/playback.py`
(the `MusicPlayer` state machine).  Python floats are modelled as exact
rationals (with real-valued square roots where the code calls
`np.linalg.norm`); wall-clock timestamps, audio durations and the results of
the external pygame/pydub/network calls are passed in as explicit parameters.
Control operations are modelled sequentially, reflecting the source's
"all operations hold the single player lock" discipline.
-/

/-- Song `features` sub-dictionary.  `match_music` reads the keys
`rhythm` and `mood` with `dict.get(key, '')`, so both are optional. -/
structure Features where
  rhythm : Option String
  mood : Option String
deriving DecidableEq

/-- A song record from the JSON library, after `load_music_library`'s
required-field validation: `title`, `type`, `link`, `features` all present.
The `type` field is a free string that `play` compares against
the literals `"local"` and `"online"`. -/
structure Song where
  title : String
  type : String
  link : String
  features : Features
deriving DecidableEq

/-- Dot product of two vectors, as `np.dot` on equal-length lists. -/
def dot (v w : List ℚ) : ℚ :=
  (List.zipWith (fun a b => a * b) v w).sum

/-- Euclidean norm as computed by `np.linalg.norm`:
the square root of the sum of squares. -/
noncomputable def pynorm (v : List ℚ) : ℝ :=
  Real.sqrt ((dot v v : ℚ) : ℝ)

/-- Embedding of `cosine_similarity(vec1, vec2)` from
`src/modules/tag_matching.py`: `dot / (norm1 * norm2)`, with the
`if norm1 == 0 or norm2 == 0: return 0.0` guard. -/
noncomputable def cosine_similarity (vec1 vec2 : List ℚ) : ℝ :=
  if pynorm vec1 = 0 ∨ pynorm vec2 = 0 then 0
  else ((dot vec1 vec2 : ℚ) : ℝ) / (pynorm vec1 * pynorm vec2)

/-- The composite query string `f"环境:{environment}, 情绪:{mood}"`
built by `match_music`. -/
def queryStr (environment mood : String) : String :=
  "环境:" ++ environment ++ ", 情绪:" ++ mood

/-- The composite per-song feature string
`f"韵律:{features.get('rhythm','')}, 情绪:{features.get('mood','')}"`. -/
def featStr (song : Song) : String :=
  "韵律:" ++ song.features.rhythm.getD "" ++ ", 情绪:" ++ song.features.mood.getD ""

/-- The `matches` list built by `match_music` before sorting: one
`(song, cosine_similarity(query_embedding, song_embedding))` pair per
library entry, in library order.  `embed` stands for the external
`get_embedding` API call. -/
noncomputable def scoreList (embed : String → List ℚ) (environment mood : String)
    (library : List Song) : List (Song × ℝ) :=
  library.map fun song =>
    (song, cosine_similarity (embed (queryStr environment mood)) (embed (featStr song)))

/-- Insertion step of the stable descending sort: `x` is placed before the
first element whose score is ≤ the score of `x`, so earlier-listed entries
stay ahead of later entries with an equal score. -/
noncomputable def insertDesc (x : Song × ℝ) : List (Song × ℝ) → List (Song × ℝ)
  | [] => [x]
  | y :: ys => if y.2 ≤ x.2 then x :: y :: ys else y :: insertDesc x ys

/-- Embedding of `matches.sort(key=lambda x: x[1], reverse=True)`.
Python's `list.sort` is specified to be a stable sort; with `reverse=True`
its output is the unique permutation that is descending in the key with
ties kept in original order, which this insertion sort computes. -/
noncomputable def sortDesc : List (Song × ℝ) → List (Song × ℝ)
  | [] => []
  | x :: xs => insertDesc x (sortDesc xs)

/-- Failure mode of `match_music` that is not an explicit `raise`: the
completion log line `matches[0][0]['title']` raises `IndexError` when the
sorted match list is empty. -/
inductive MatchErr where
  | indexError
deriving DecidableEq

/-- Embedding of `match_music(environment, mood, lib_path, api_key, top_n)`
from `src/modules/tag_matching.py`, for a library that already loaded and
validated successfully (the file I/O is external).  The code scores every
song, sorts descending by score, prints a completion line that indexes
`matches[0]` (raising `IndexError` on an empty library), and returns
`matches[:max(1, top_n)]`. -/
noncomputable def match_music (embed : String → List ℚ) (environment mood : String)
    (library : List Song) (top_n : ℤ) : Except MatchErr (List (Song × ℝ)) :=
  let ms := sortDesc (scoreList embed environment mood library)
  match ms with
  | [] => .error .indexError
  | _ :: _ => .ok (ms.take (max 1 top_n).toNat)

/-- The mutable state of `MusicPlayer` (`src/modules/playback.py`):
`current_song`, `is_playing`, `is_paused`, `progress` (0.0–100.0 percent),
`song_length`, `start_time`, and the tracker thread's stop event. -/
structure PlayerState where
  current_song : Option Song
  is_playing : Bool
  is_paused : Bool
  progress : ℚ
  song_length : ℚ
  start_time : ℚ
  thread_stop_event : Bool
deriving DecidableEq

/-- State set up by `MusicPlayer.__init__`. -/
def initState : PlayerState :=
  { current_song := none, is_playing := false, is_paused := false,
    progress := 0, song_length := 0, start_time := 0, thread_stop_event := false }

namespace MusicPlayer

/-- `MusicPlayer.stop()`: when playing or paused, stops the mixer, sets the
thread stop event, joins the tracker thread (external), and resets
`is_playing`, `is_paused` and `progress`.  `current_song` is not touched. -/
def stop (s : PlayerState) : PlayerState :=
  if s.is_playing || s.is_paused then
    { s with thread_stop_event := true, is_playing := false,
             is_paused := false, progress := 0 }
  else s

/-- `MusicPlayer.play(song_info)`.  `now` is `time.time()`; `loadOk` tells
whether `pygame.mixer.music.load/play` succeed, and `lenRes` is the result
of `_calculate_song_length` (`none` when it raises).  Either failure is
caught by the `except` branch, which clears `current_song` and returns
`False`.  The `"online"` branch and the unsupported-type branch only log
and return `False`. -/
def play (song : Song) (now : ℚ) (loadOk : Bool) (lenRes : Option ℚ)
    (s0 : PlayerState) : Bool × PlayerState :=
  let s1 := if s0.is_playing || s0.is_paused then stop s0 else s0
  let s2 := { s1 with current_song := some song, is_paused := false, progress := 0 }
  if song.type = "local" then
    if loadOk then
      let s3 := { s2 with start_time := now }
      match lenRes with
      | some len =>
          (true, { s3 with song_length := len, thread_stop_event := false,
                           is_playing := true })
      | none => (false, { s3 with current_song := none })
    else (false, { s2 with current_song := none })
  else if song.type = "online" then
    (false, s2)
  else
    (false, s2)

/-- `MusicPlayer.pause()`: when playing and not paused, pauses the mixer and
freezes `progress = min(100.0, (elapsed / song_length) * 100)` where
`elapsed = now - start_time`. -/
def pause (now : ℚ) (s : PlayerState) : PlayerState :=
  if s.is_playing && !s.is_paused then
    { s with is_paused := true,
             progress := min 100 ((now - s.start_time) / s.song_length * 100) }
  else s

/-- `MusicPlayer.resume()`: when paused, unpauses the mixer and rewinds the
recorded start time to `now - (progress / 100 * song_length)`. -/
def resume (now : ℚ) (s : PlayerState) : PlayerState :=
  if s.is_paused then
    { s with start_time := now - s.progress / 100 * s.song_length,
             is_paused := false, is_playing := true }
  else s

/-- `MusicPlayer.set_volume(target_volume)`: the value handed to
`pygame.mixer.music.set_volume` is `target_volume / 100`, with no clamping
in the player code. -/
def set_volume (target_volume : ℚ) : ℚ :=
  target_volume / 100

/-- The behaviour §4.3 of the spec ascribes to `setVolume`: clamp the
percentage to [0,100], then apply it to the device on the 0–1 scale.
Stated from the spec's words, for comparison with `set_volume`. -/
def set_volume_spec (target_volume : ℚ) : ℚ :=
  max 0 (min 100 target_volume) / 100

/-- `MusicPlayer.set_progress(percentage)`: a no-op unless playing and not
paused; otherwise records `max(0.0, min(100.0, percentage))`. -/
def set_progress (percentage : ℚ) (s : PlayerState) : PlayerState :=
  if !s.is_playing || s.is_paused then s
  else { s with progress := max 0 (min 100 percentage) }

/-- `MusicPlayer.get_progress()`: the snapshot
`(is_playing and not is_paused, progress, current_song)`. -/
def get_progress (s : PlayerState) : Bool × ℚ × Option Song :=
  (s.is_playing && !s.is_paused, s.progress, s.current_song)

/-- One cycle of the `_track_progress` thread body, entered at the
`while not thread_stop_event.is_set()` check; `now` is `time.time()` after
the one-second sleep.  The returned flag says whether the loop would run
another cycle: `continue` when the player is not actively playing a song,
but after a successful progress update the function hits
`return self.progress` and the thread exits (the completion check below
that `return` is unreachable). -/
def track_progress_iter (now : ℚ) (s : PlayerState) : PlayerState × Bool :=
  if s.thread_stop_event then (s, false)
  else if !s.is_playing || s.is_paused || s.current_song = none then (s, true)
  else
    ({ s with progress := min 100 ((now - s.start_time) / s.song_length * 100) },
     false)

end MusicPlayer

/-- The control operations of the player, each carrying the external inputs
(wall-clock reading, audio-probe results) it consumes. -/
inductive POp where
  | play (song : Song) (now : ℚ) (loadOk : Bool) (lenRes : Option ℚ)
  | pause (now : ℚ)
  | resume (now : ℚ)
  | stop
  | set_progress (percentage : ℚ)
  | track (now : ℚ)

/-- Applies one player operation to a state (dropping `play`'s boolean
result and the tracker's continue flag). -/
def applyOp : POp → PlayerState → PlayerState
  | .play song now loadOk lenRes, s => (MusicPlayer.play song now loadOk lenRes s).2
  | .pause now, s => MusicPlayer.pause now s
  | .resume now, s => MusicPlayer.resume now s
  | .stop, s => MusicPlayer.stop s
  | .set_progress p, s => MusicPlayer.set_progress p s
  | .track now, s => (MusicPlayer.track_progress_iter now s).1

/-- Environment assumptions for one operation: wherever the code divides a
wall-clock delta by the track duration (`pause` and the tracker update),
the clock has not gone backwards past the recorded start time and the
duration is positive. -/
def clockOk : POp → PlayerState → Prop
  | .pause now, s => s.start_time ≤ now ∧ 0 < s.song_length
  | .track now, s => s.start_time ≤ now ∧ 0 < s.song_length
  | _, _ => True

/-- Stability of a ranking `out` against the pre-sort list `src`: for every
score, the entries of `out` carrying that score are an initial segment of
the equally-scored entries of `src` in their original order. -/
def StableOn (out src : List (Song × ℝ)) : Prop :=
  ∀ sc : ℝ, ∃ rest,
    (out.filter fun q => q.2 = sc) ++ rest = src.filter fun q => q.2 = sc

/-- Descending order on scored songs: the right entry's score is at most the
left entry's score. -/
def descOrder (a b : Song × ℝ) : Prop :=
  b.2 ≤ a.2

/-- A concrete local song used in counterexamples and witnesses. -/
def songA : Song :=
  { title := "a", type := "local", link := "a.mp3",
    features := { rhythm := some "舒缓", mood := some "轻松" } }

/-- A concrete online song used in counterexamples and witnesses. -/
def songB : Song :=
  { title := "b", type := "online", link := "42",
    features := { rhythm := none, mood := none } }

/-- A player state in the middle of playing `songA`: 37% reported progress,
200-second track started at time 0, tracker running. -/
def playingState : PlayerState :=
  { current_song := some songA, is_playing := true, is_paused := false,
    progress := 37, song_length := 200, start_time := 0,
    thread_stop_event := false }

/-- A paused state: `songA` frozen at 40% of a 200-second track. -/
def pausedState : PlayerState :=
  { current_song := some songA, is_playing := true, is_paused := true,
    progress := 40, song_length := 200, start_time := 0,
    thread_stop_event := false }

/-! ## Theorems -/

/-- C1 (amended): from a Playing or Paused state, `stop()` resets the playing
and paused flags and the progress, so `get_progress()` afterwards returns
`(false, 0.0, previousSong)` — but `current_song` is left as it was, not
cleared to `None`. -/
theorem c1_stop_to_idle (s : PlayerState)
    (h : s.is_playing = true ∨ s.is_paused = true) :
    MusicPlayer.get_progress (MusicPlayer.stop s) = (false, 0, s.current_song) := by
  rcases h with h | h <;>
    simp [MusicPlayer.stop, MusicPlayer.get_progress, h]

/-- C1 counterexample: stopping while `songA` is playing leaves
`get_progress()` returning the old song, not `(false, 0.0, none)`. -/
theorem c1_stop_counterexample :
    MusicPlayer.get_progress (MusicPlayer.stop playingState) ≠ (false, 0, none) := by
  decide

/-- C1 witness: the amended theorem instantiated at `playingState`. -/
theorem c1_stop_witness :
    playingState.is_playing = true ∧
    MusicPlayer.get_progress (MusicPlayer.stop playingState) =
      (false, 0, playingState.current_song) :=
  ⟨rfl, c1_stop_to_idle playingState (Or.inl rfl)⟩

/-- C2 (amended): `play` on a song whose `type` is `"online"` returns `False`
and leaves the session not playing and not paused with progress 0, but it
records the requested song in `current_song` instead of leaving it unset. -/
theorem c2_play_online (s0 : PlayerState) (song : Song) (now : ℚ)
    (loadOk : Bool) (lenRes : Option ℚ) (h : song.type = "online") :
    (MusicPlayer.play song now loadOk lenRes s0).1 = false ∧
    (MusicPlayer.play song now loadOk lenRes s0).2.is_playing = false ∧
    (MusicPlayer.play song now loadOk lenRes s0).2.is_paused = false ∧
    (MusicPlayer.play song now loadOk lenRes s0).2.progress = 0 ∧
    (MusicPlayer.play song now loadOk lenRes s0).2.current_song = some song := by
  have hlocal : song.type ≠ "local" := by rw [h]; decide
  by_cases hg : (s0.is_playing || s0.is_paused) = true <;>
    simp_all [MusicPlayer.play, MusicPlayer.stop, hlocal, h]

/-- C2 counterexample: playing the online song `songB` from the fresh state
sets `current_song` to that song; it is not left as `none`. -/
theorem c2_play_online_counterexample :
    (MusicPlayer.play songB 0 true none initState).2.current_song ≠ none := by
  decide

/-- C2 witness: the amended theorem instantiated at `initState` and `songB`. -/
theorem c2_play_online_witness :
    songB.type = "online" ∧
    (MusicPlayer.play songB 0 true none initState).1 = false ∧
    (MusicPlayer.play songB 0 true none initState).2.is_playing = false ∧
    (MusicPlayer.play songB 0 true none initState).2.is_paused = false ∧
    (MusicPlayer.play songB 0 true none initState).2.progress = 0 ∧
    (MusicPlayer.play songB 0 true none initState).2.current_song = some songB :=
  ⟨rfl, c2_play_online initState songB 0 true none rfl⟩

/-- C3 (amended): `set_volume(v)` hands `v / 100` to the device with no
clamping; it agrees with the spec's clamp-to-[0,100] behaviour exactly when
`v` already lies in `[0, 100]`. -/
theorem c3_set_volume_unclamped (v : ℚ) :
    MusicPlayer.set_volume v = v / 100 ∧
    (MusicPlayer.set_volume v = MusicPlayer.set_volume_spec v ↔ 0 ≤ v ∧ v ≤ 100) := by
  refine ⟨rfl, ?_⟩
  unfold MusicPlayer.set_volume MusicPlayer.set_volume_spec
  constructor
  · intro hEq
    have hv : v = max 0 (min 100 v) := by
      field_simp at hEq
      exact hEq
    constructor
    · rw [hv]; exact le_max_left 0 _
    · rw [hv]
      exact max_le (by norm_num) (min_le_left 100 v)
  · rintro ⟨h0, h1⟩
    rw [min_eq_right h1, max_eq_right h0]

/-- C3 counterexample: `set_volume(150)` and `set_volume(-10)` do not produce
the clamped device values the claim predicts (those of 100 and 0). -/
theorem c3_set_volume_counterexample :
    MusicPlayer.set_volume 150 ≠ MusicPlayer.set_volume_spec 150 ∧
    MusicPlayer.set_volume (-10) ≠ MusicPlayer.set_volume_spec (-10) := by
  constructor <;>
    norm_num [MusicPlayer.set_volume, MusicPlayer.set_volume_spec, min_def, max_def]

/-- C5: one cycle of the tracker at a playing state updates the progress and
then exits the loop (`return self.progress`), instead of continuing until the
stop event is set. -/
theorem c5_tracker_exits_after_one_update :
    MusicPlayer.track_progress_iter 10 playingState =
      ({ playingState with progress := 5 }, false) := by
  simp only [MusicPlayer.track_progress_iter, playingState, songA]
  norm_num [min_def]
  simp

theorem insertDesc_length (x : Song × ℝ) (l : List (Song × ℝ)) :
    (insertDesc x l).length = l.length + 1 := by
  induction l with
  | nil => simp [insertDesc]
  | cons y ys ih =>
      by_cases h : y.2 ≤ x.2 <;> simp [insertDesc, h, ih]

theorem sortDesc_length (l : List (Song × ℝ)) :
    (sortDesc l).length = l.length := by
  induction l with
  | nil => simp [sortDesc]
  | cons x xs ih => simp [sortDesc, insertDesc_length, ih]

theorem insertDesc_mem {b x : Song × ℝ} {l : List (Song × ℝ)} :
    b ∈ insertDesc x l ↔ b = x ∨ b ∈ l := by
  induction l with
  | nil => simp [insertDesc]
  | cons y ys ih =>
      by_cases h : y.2 ≤ x.2
      · simp [insertDesc, h]
      · simp [insertDesc, h, ih]
        tauto

theorem insertDesc_pairwise (x : Song × ℝ) (l : List (Song × ℝ))
    (h : l.Pairwise descOrder) : (insertDesc x l).Pairwise descOrder := by
  induction l with
  | nil => simp [insertDesc, descOrder]
  | cons y ys ih =>
      rcases List.pairwise_cons.1 h with ⟨hy, hys⟩
      by_cases hc : y.2 ≤ x.2
      · simp only [insertDesc, if_pos hc]
        refine List.pairwise_cons.2 ⟨?_, h⟩
        intro b hb
        rcases List.mem_cons.1 hb with rfl | hbys
        · exact hc
        · exact le_trans (hy b hbys) hc
      · simp only [insertDesc, if_neg hc]
        refine List.pairwise_cons.2 ⟨?_, ih hys⟩
        intro b hb
        rcases insertDesc_mem.1 hb with rfl | hbys
        · exact le_of_not_le hc
        · exact hy b hbys

theorem sortDesc_pairwise (l : List (Song × ℝ)) :
    (sortDesc l).Pairwise descOrder := by
  induction l with
  | nil => simp [sortDesc]
  | cons x xs ih =>
      simp only [sortDesc]
      exact insertDesc_pairwise x _ ih

theorem insertDesc_filter (sc : ℝ) (x : Song × ℝ) (l : List (Song × ℝ)) :
    ((insertDesc x l).filter fun q => q.2 = sc) =
      if x.2 = sc then x :: (l.filter fun q => q.2 = sc)
      else l.filter fun q => q.2 = sc := by
  induction l with
  | nil =>
      by_cases hx : x.2 = sc <;> simp [insertDesc, hx]
  | cons y ys ih =>
      by_cases hc : y.2 ≤ x.2
      · simp only [insertDesc, if_pos hc]
        by_cases hx : x.2 = sc <;> simp [List.filter_cons, hx]
      · have hyx : x.2 < y.2 := not_le.1 hc
        simp only [insertDesc, if_neg hc, List.filter_cons]
        by_cases hx : x.2 = sc
        · have hy : ¬(y.2 = sc) := by
            rw [← hx]
            exact ne_of_gt hyx
          simp [hx, hy, ih]
        · by_cases hyc : y.2 = sc <;> simp [hx, hyc, ih]

theorem sortDesc_filter (sc : ℝ) (l : List (Song × ℝ)) :
    ((sortDesc l).filter fun q => q.2 = sc) = l.filter fun q => q.2 = sc := by
  induction l with
  | nil => rfl
  | cons x xs ih =>
      simp only [sortDesc, insertDesc_filter, List.filter_cons]
      by_cases hx : x.2 = sc <;> simp [hx, ih]

theorem match_music_eq_ok (embed : String → List ℚ) (environment mood : String)
    (library : List Song) (top_n : ℤ) (h : library ≠ []) :
    match_music embed environment mood library top_n =
      .ok ((sortDesc (scoreList embed environment mood library)).take
            (max 1 top_n).toNat) := by
  have hlen : (sortDesc (scoreList embed environment mood library)).length =
      library.length := by
    rw [sortDesc_length]
    simp [scoreList]
  have hne : sortDesc (scoreList embed environment mood library) ≠ [] := by
    intro hnil
    rw [hnil] at hlen
    exact h (List.length_eq_zero.1 hlen.symm)
  obtain ⟨a, t, hat⟩ := List.exists_cons_of_ne_nil hne
  unfold match_music
  rw [hat]

/-- C4: `match_music` on a well-formed but empty library does not return an
empty ranking: the completion log line indexes `matches[0]` and raises
`IndexError`. -/
theorem c4_match_empty_library (embed : String → List ℚ) (environment mood : String)
    (top_n : ℤ) :
    match_music embed environment mood [] top_n = .error .indexError := rfl

/-- C6 (amended): for a non-empty library of well-formed songs and any
`topN = k ≥ 1`, `match_music` returns exactly `min(k, N)` scored pairs,
sorted descending by score, stably: entries with equal scores keep their
original library order.  On an empty library the call raises instead of
returning an empty list. -/
theorem c6_match_ranked (embed : String → List ℚ) (environment mood : String)
    (library : List Song) (top_n : ℤ) (hN : library ≠ []) (hk : 1 ≤ top_n) :
    ∃ res, match_music embed environment mood library top_n = .ok res ∧
      res.length = min top_n.toNat library.length ∧
      res.Pairwise descOrder ∧
      StableOn res (scoreList embed environment mood library) := by
  refine ⟨(sortDesc (scoreList embed environment mood library)).take
      (max 1 top_n).toNat,
    match_music_eq_ok embed environment mood library top_n hN, ?_, ?_, ?_⟩
  · rw [List.length_take, sortDesc_length, max_eq_right hk]
    simp [scoreList]
  · exact (sortDesc_pairwise _).sublist (List.take_sublist _ _)
  · intro sc
    refine ⟨((sortDesc (scoreList embed environment mood library)).drop
        (max 1 top_n).toNat).filter fun q => q.2 = sc, ?_⟩
    rw [← List.filter_append, List.take_append_drop, sortDesc_filter]

/-- C6 counterexample: with `N = 0` and `topN = 1` the claim predicts
`min(1, 0) = 0` returned pairs, but `match_music` raises instead of
returning the empty ranking. -/
theorem c6_counterexample :
    match_music (fun _ => [(1 : ℚ)]) "a" "b" [] 1 ≠ .ok [] := by
  have hE : match_music (fun _ => [(1 : ℚ)]) "a" "b" [] 1 = .error .indexError := rfl
  rw [hE]
  simp

/-- C6 witness: the amended theorem instantiated at a one-song library with
a constant embedding. -/
theorem c6_witness :
    ([songA] : List Song) ≠ [] ∧ (1 : ℤ) ≤ 1 ∧
    ∃ res, match_music (fun _ => [(1 : ℚ)]) "e" "m" [songA] 1 = .ok res ∧
      res.length = min (1 : ℤ).toNat [songA].length ∧
      res.Pairwise descOrder ∧
      StableOn res (scoreList (fun _ => [(1 : ℚ)]) "e" "m" [songA]) :=
  ⟨by simp, le_refl 1,
   c6_match_ranked (fun _ => [(1 : ℚ)]) "e" "m" [songA] 1 (by simp) (le_refl 1)⟩

theorem play_progress (song : Song) (now : ℚ) (loadOk : Bool) (lenRes : Option ℚ)
    (s0 : PlayerState) :
    (MusicPlayer.play song now loadOk lenRes s0).2.progress = 0 := by
  unfold MusicPlayer.play
  by_cases hl : song.type = "local" <;>
    by_cases ho : song.type = "online" <;>
      cases loadOk <;> cases lenRes <;> simp [hl, ho]

theorem min_formula_bounds (now st d : ℚ) (hst : st ≤ now) (hd : 0 < d) :
    0 ≤ min 100 ((now - st) / d * 100) ∧ min 100 ((now - st) / d * 100) ≤ 100 := by
  constructor
  · refine le_min (by norm_num) ?_
    exact mul_nonneg (div_nonneg (sub_nonneg.2 hst) hd.le) (by norm_num)
  · exact min_le_left _ _

/-- C7: from a Paused state with frozen progress `p` and positive duration,
`resume()` sets the effective start timestamp to `now - (p/100 × duration)`
and transitions to Playing, and the progress that the background tracker
computes at any later instant continues monotonically from `p` rather than
resetting to 0. -/
theorem c7_resume_continues (s : PlayerState) (now t1 t2 : ℚ)
    (hp : s.is_paused = true) (_h0 : 0 ≤ s.progress) (h1 : s.progress ≤ 100)
    (hd : 0 < s.song_length) (hsong : s.current_song ≠ none)
    (hev : s.thread_stop_event = false) (ht1 : now ≤ t1) (ht12 : t1 ≤ t2) :
    (MusicPlayer.resume now s).start_time =
      now - s.progress / 100 * s.song_length ∧
    (MusicPlayer.resume now s).is_playing = true ∧
    (MusicPlayer.resume now s).is_paused = false ∧
    (MusicPlayer.resume now s).progress = s.progress ∧
    s.progress ≤
      ((MusicPlayer.track_progress_iter t1 (MusicPlayer.resume now s)).1).progress ∧
    ((MusicPlayer.track_progress_iter t1 (MusicPlayer.resume now s)).1).progress ≤
      ((MusicPlayer.track_progress_iter t2 (MusicPlayer.resume now s)).1).progress := by
  have hd0 : s.song_length ≠ 0 := ne_of_gt hd
  have hres : MusicPlayer.resume now s =
      { s with start_time := now - s.progress / 100 * s.song_length,
               is_paused := false, is_playing := true } := by
    unfold MusicPlayer.resume
    rw [if_pos hp]
  have hs' : ∀ t : ℚ,
      ((MusicPlayer.track_progress_iter t (MusicPlayer.resume now s)).1).progress =
        min 100 ((t - (now - s.progress / 100 * s.song_length)) /
          s.song_length * 100) := by
    intro t
    rw [hres]
    unfold MusicPlayer.track_progress_iter
    simp [hev, hsong]
  have key : ∀ t : ℚ,
      (t - (now - s.progress / 100 * s.song_length)) / s.song_length * 100 =
        (t - now) * 100 / s.song_length + s.progress := by
    intro t
    field_simp
    ring
  refine ⟨by rw [hres], by rw [hres], by rw [hres], by rw [hres], ?_, ?_⟩
  · rw [hs' t1, key t1]
    refine le_min h1 ?_
    have hnn : 0 ≤ (t1 - now) * 100 / s.song_length :=
      div_nonneg (mul_nonneg (sub_nonneg.2 ht1) (by norm_num)) hd.le
    linarith
  · rw [hs' t1, hs' t2]
    refine min_le_min le_rfl ?_
    gcongr

/-- C7 witness: the theorem instantiated at `pausedState` (40% of a
200-second track), resumed at time 50 and tracked at times 60 and 70. -/
theorem c7_resume_witness :
    pausedState.is_paused = true ∧ 0 ≤ pausedState.progress ∧
    pausedState.progress ≤ 100 ∧ 0 < pausedState.song_length ∧
    pausedState.current_song ≠ none ∧ pausedState.thread_stop_event = false ∧
    (50 : ℚ) ≤ 60 ∧ (60 : ℚ) ≤ 70 ∧
    pausedState.progress ≤
      ((MusicPlayer.track_progress_iter 60
          (MusicPlayer.resume 50 pausedState)).1).progress ∧
    ((MusicPlayer.track_progress_iter 60
        (MusicPlayer.resume 50 pausedState)).1).progress ≤
      ((MusicPlayer.track_progress_iter 70
          (MusicPlayer.resume 50 pausedState)).1).progress :=
  ⟨rfl, by norm_num [pausedState], by norm_num [pausedState],
   by norm_num [pausedState], by simp [pausedState], rfl,
   by norm_num, by norm_num,
   (c7_resume_continues pausedState 50 60 70 rfl (by norm_num [pausedState])
      (by norm_num [pausedState]) (by norm_num [pausedState])
      (by simp [pausedState]) rfl (by norm_num) (by norm_num)).2.2.2.2.1,
   (c7_resume_continues pausedState 50 60 70 rfl (by norm_num [pausedState])
      (by norm_num [pausedState]) (by norm_num [pausedState])
      (by simp [pausedState]) rfl (by norm_num) (by norm_num)).2.2.2.2.2⟩

/-- C8: when either input vector has zero magnitude, `cosine_similarity`
takes the guarded early-return branch and yields 0.0 — the division by the
product of the norms is never reached. -/
theorem c8_zero_norm (vec1 vec2 : List ℚ)
    (h : pynorm vec1 = 0 ∨ pynorm vec2 = 0) :
    cosine_similarity vec1 vec2 = 0 := by
  unfold cosine_similarity
  rw [if_pos h]

/-- C8 witness: the zero vector `[0]` against `[1, 2]`. -/
theorem c8_zero_norm_witness :
    (pynorm [(0 : ℚ)] = 0 ∨ pynorm [(1 : ℚ), 2] = 0) ∧
    cosine_similarity [(0 : ℚ)] [(1 : ℚ), 2] = 0 := by
  have h0 : pynorm [(0 : ℚ)] = 0 := by
    simp [pynorm, dot]
  exact ⟨Or.inl h0, c8_zero_norm _ _ (Or.inl h0)⟩

/-- C9: cosine similarity is commutative in its two arguments. -/
theorem c9_cosine_symm (a b : List ℚ) :
    cosine_similarity a b = cosine_similarity b a := by
  have hdot : dot a b = dot b a := by
    unfold dot
    rw [List.zipWith_comm_of_comm]
    intro x y
    ring
  unfold cosine_similarity
  rw [hdot]
  by_cases h : pynorm a = 0 ∨ pynorm b = 0
  · rw [if_pos h, if_pos (Or.symm h)]
  · rw [if_neg h, if_neg (fun hc => h (Or.symm hc)), mul_comm]

/-- C10: assuming the wall clock has not gone backwards past the recorded
start time and the track duration is positive wherever an elapsed fraction
is recomputed, every player operation — `play`, `pause`, `resume`, `stop`,
`set_progress`, and each background-tracker update — preserves
`0 ≤ progress ≤ 100`. -/
theorem c10_progress_invariant (op : POp) (s : PlayerState)
    (hc : clockOk op s) (h0 : 0 ≤ s.progress) (h1 : s.progress ≤ 100) :
    0 ≤ (applyOp op s).progress ∧ (applyOp op s).progress ≤ 100 := by
  cases op with
  | play song now loadOk lenRes =>
      have hz : (applyOp (POp.play song now loadOk lenRes) s).progress = 0 :=
        play_progress song now loadOk lenRes s
      rw [hz]
      norm_num
  | pause now =>
      obtain ⟨hst, hd⟩ := hc
      simp only [applyOp, MusicPlayer.pause]
      by_cases hg : (s.is_playing && !s.is_paused) = true
      · rw [if_pos hg]
        simpa using min_formula_bounds now s.start_time s.song_length hst hd
      · rw [if_neg hg]
        exact ⟨h0, h1⟩
  | resume now =>
      simp only [applyOp, MusicPlayer.resume]
      by_cases hg : s.is_paused = true
      · rw [if_pos hg]
        exact ⟨h0, h1⟩
      · rw [if_neg hg]
        exact ⟨h0, h1⟩
  | stop =>
      simp only [applyOp, MusicPlayer.stop]
      by_cases hg : (s.is_playing || s.is_paused) = true
      · rw [if_pos hg]
        norm_num
      · rw [if_neg hg]
        exact ⟨h0, h1⟩
  | set_progress p =>
      simp only [applyOp, MusicPlayer.set_progress]
      by_cases hg : (!s.is_playing || s.is_paused) = true
      · rw [if_pos hg]
        exact ⟨h0, h1⟩
      · rw [if_neg hg]
        refine ⟨le_max_left 0 _, ?_⟩
        exact max_le (by norm_num) (min_le_left _ _)
  | track now =>
      obtain ⟨hst, hd⟩ := hc
      simp only [applyOp, MusicPlayer.track_progress_iter]
      by_cases he : s.thread_stop_event = true
      · rw [if_pos he]
        exact ⟨h0, h1⟩
      · rw [if_neg he]
        by_cases hg :
            (!s.is_playing || s.is_paused || decide (s.current_song = none)) = true
        · rw [if_pos hg]
          exact ⟨h0, h1⟩
        · rw [if_neg hg]
          simpa using min_formula_bounds now s.start_time s.song_length hst hd

/-- C10 witness: the invariant applied to `pause` at time 10 from
`playingState`. -/
theorem c10_progress_invariant_witness :
    clockOk (POp.pause 10) playingState ∧ 0 ≤ playingState.progress ∧
    playingState.progress ≤ 100 ∧
    0 ≤ (applyOp (POp.pause 10) playingState).progress ∧
    (applyOp (POp.pause 10) playingState).progress ≤ 100 :=
  ⟨⟨by norm_num [playingState], by norm_num [playingState]⟩,
   by norm_num [playingState], by norm_num [playingState],
   (c10_progress_invariant (POp.pause 10) playingState
      ⟨by norm_num [playingState], by norm_num [playingState]⟩
      (by norm_num [playingState]) (by norm_num [playingState])).1,
   (c10_progress_invariant (POp.pause 10) playingState
      ⟨by norm_num [playingState], by norm_num [playingState]⟩
      (by norm_num [playingState]) (by norm_num [playingState])).2⟩
